/-
Verification of the SecureBank transaction pipeline (lambda_function.py):
a shallow embedding of the fraud-detection risk engine, the transaction
validator, the per-record pipeline orchestrator and the batch loop,
together with theorems settling the specification claims.

Modelling conventions:
* Python floats are modelled as exact rationals (ℚ); values produced by the
  square root in the distance approximation are modelled in ℝ.
* `round(x, n)` is modelled as exact round-half-to-even on 10^n-ths.
* A Python dict field read with `.get` is an `Option` field; Python float
  truthiness (missing / None / 0.0 are falsy) is `truthyQ`.
* Code that can raise is embedded with `Option` / `Except`: the amount and
  velocity signals return `none` exactly where the Python code would raise
  `ZeroDivisionError`; validation and the orchestrator return `Except`.
* External I/O (DynamoDB, S3, CloudWatch) is modelled by an explicit `DB`
  state plus per-record failure flags (`RecordCtx`) saying which external
  call fails, and a `SideEffects` log of sink writes.
-/
import Mathlib

open scoped Classical

/-- A location dict: `latitude`, `longitude`, `country` read with `.get`
(absent keys are `none`).  The unused `city`/`state` keys are omitted. -/
structure Location where
  latitude : Option ℚ
  longitude : Option ℚ
  country : Option String
deriving DecidableEq

/-- The empty location dict `{}`. -/
def emptyLocation : Location := ⟨none, none, none⟩

/-- A raw transaction candidate as decoded from the stream: every field the
validator looks at may be missing.  Fields of the source dict that no code
path reads (account id, type, payment method, metadata) are omitted. -/
structure Cand where
  transaction_id : Option String
  customer_id : Option String
  amount : Option ℚ
  currency : Option String
  merchant_id : Option String
  merchant_category : Option String
  timestamp : Option ℤ
  location : Option Location
deriving DecidableEq

/-- A transaction with all required fields present (the shape guaranteed
after validation, and the shape of stored history entries).  Timestamps are
UTC instants in epoch seconds. -/
structure Txn where
  transaction_id : String
  customer_id : String
  amount : ℚ
  currency : String
  merchant_id : String
  merchant_category : String
  timestamp : ℤ
  location : Location
deriving DecidableEq

/-- Read a validated candidate as a `Txn` (defaults are never used after
validation succeeds, which guarantees every field is present). -/
def Cand.asTxn (c : Cand) : Txn :=
  { transaction_id := c.transaction_id.getD ""
    customer_id := c.customer_id.getD ""
    amount := c.amount.getD 0
    currency := c.currency.getD ""
    merchant_id := c.merchant_id.getD ""
    merchant_category := c.merchant_category.getD ""
    timestamp := c.timestamp.getD 0
    location := c.location.getD emptyLocation }

/-- A customer profile row.  `account_created`, `last_transaction_timestamp`
and `last_updated` are wall-clock stamps (epoch seconds, `none` if the field
was never written). -/
structure Profile where
  customer_id : String
  risk_profile : String
  average_monthly_spend : ℚ
  transaction_count : ℕ
  fraud_count : ℕ
  location : Location
  account_created : Option ℤ
  last_transaction_timestamp : Option ℤ
  last_updated : Option ℤ
deriving DecidableEq

/-- The environment-variable configuration surface with its defaults
`FRAUD_THRESHOLD = 0.8`, `VELOCITY_THRESHOLD = 5`,
`AMOUNT_THRESHOLD_MULTIPLIER = 3.0`. -/
structure Config where
  fraudThreshold : ℚ
  velocityThreshold : ℕ
  amountMultiplier : ℚ

/-- Default configuration (no environment overrides). -/
def defaultConfig : Config := { fraudThreshold := 0.8, velocityThreshold := 5, amountMultiplier := 3.0 }

/-- Python truthiness of a `.get`-read numeric field: missing and `0.0` are
falsy, every other number is truthy. -/
def truthyQ : Option ℚ → Bool
  | none => false
  | some x => decide (x ≠ 0)

/-- Exact round-half-to-even of a rational to an integer (the semantics of
Python 3 `round`). -/
def rhalfEvenQ (x : ℚ) : ℤ :=
  if Int.fract x < 1/2 then ⌊x⌋
  else if 1/2 < Int.fract x then ⌊x⌋ + 1
  else if 2 ∣ ⌊x⌋ then ⌊x⌋ else ⌊x⌋ + 1

/-- Python `round(x, 2)` on exact rationals. -/
def pyRound2 (x : ℚ) : ℚ := (rhalfEvenQ (x * 100) : ℚ) / 100

/-- Python `list[-5:]`: the last `min 5 (length)` elements of a list. -/
def lastFive {α : Type} (l : List α) : List α := l.drop (l.length - 5)

/-- FraudDetector._check_velocity_risk.  Counts window entries strictly
newer than one hour before the incoming transaction's timestamp; at or above
the velocity threshold T the signal is `min 1 (count / (2T))`, else 0.
Returns `none` exactly where Python raises `ZeroDivisionError`
(`T = 0` with a non-empty window, since `count ≥ 0` always holds). -/
def checkVelocityRisk (cfg : Config) (t : Txn) (recent : List Txn) : Option ℚ :=
  if recent = [] then some 0
  else
    let oneHourAgo := t.timestamp - 3600
    let recentCount := (recent.filter (fun r => decide (oneHourAgo < r.timestamp))).length
    if cfg.velocityThreshold ≤ recentCount then
      if (cfg.velocityThreshold : ℚ) * 2 = 0 then none
      else some (min 1 ((recentCount : ℚ) / ((cfg.velocityThreshold : ℚ) * 2)))
    else some 0

/-- FraudDetector._check_amount_risk.  `avg_spend` is the profile's monthly
average over 30; above `avg_spend × multiplier` the signal is
`min 1 (amount / (avg_spend × multiplier × 2))`; else 0.8 above the 10000
ceiling; else 0.  Returns `none` exactly where Python raises
`ZeroDivisionError`: the first branch taken with a zero denominator. -/
def checkAmountRisk (cfg : Config) (t : Txn) (p : Profile) : Option ℚ :=
  let amount := t.amount
  let avgSpend := p.average_monthly_spend / 30
  if avgSpend * cfg.amountMultiplier < amount then
    if avgSpend * cfg.amountMultiplier * 2 = 0 then none
    else some (min 1 (amount / (avgSpend * cfg.amountMultiplier * 2)))
  else if (10000 : ℚ) < amount then some 0.8
  else some 0

/-- Hour of day (UTC) of an epoch-second timestamp. -/
def hourOf (ts : ℤ) : ℤ := Int.emod (Int.ediv ts 3600) 24

/-- FraudDetector._check_time_risk: 0.4 for hours 2..6, 0.2 for hours
before 6 or after 22, else 0. -/
def checkTimeRisk (t : Txn) : ℚ :=
  let hour := hourOf t.timestamp
  if 2 ≤ hour ∧ hour ≤ 6 then 0.4
  else if hour < 6 ∨ 22 < hour then 0.2
  else 0

/-- Error taxonomy of the pipeline, as observed by the batch loop. -/
inductive ProcError
  | validationError (msg : String)
  | zeroDivisionError
  | storageError
deriving DecidableEq

/-- Lines 263..265 of the validator: assign the generated id when the
candidate has none (Python mutates the input dict in place; the pure
embedding returns the updated candidate). -/
def assignId (genId : String) (t : Cand) : Cand :=
  if t.transaction_id.isSome then t else { t with transaction_id := some genId }

/-- TransactionProcessor._validate_transaction.  Checks the required fields
in source order, assigns the generated id `genId` when `transaction_id` is
absent (Python mutates the input dict in place; the pure embedding returns
the updated candidate), then checks positivity of the amount and the
supported-currency set.  The `isinstance(location, dict)` check is
trivially true in the typed model. -/
def validateTransaction (genId : String) (t : Cand) : Except ProcError Cand :=
  if t.customer_id.isNone then .error (.validationError "Missing required field: customer_id")
  else if t.amount.isNone then .error (.validationError "Missing required field: amount")
  else if t.currency.isNone then .error (.validationError "Missing required field: currency")
  else if t.merchant_id.isNone then .error (.validationError "Missing required field: merchant_id")
  else if t.merchant_category.isNone then .error (.validationError "Missing required field: merchant_category")
  else if t.timestamp.isNone then .error (.validationError "Missing required field: timestamp")
  else if t.location.isNone then .error (.validationError "Missing required field: location")
  else
    let t1 := assignId genId t
    if t1.amount.getD 0 ≤ 0 then .error (.validationError "Transaction amount must be positive")
    else if (["USD", "EUR", "GBP", "CAD"].contains (t1.currency.getD "")) = false then
      .error (.validationError ("Unsupported currency: " ++ t1.currency.getD ""))
    else .ok t1

/-- FraudDetector._calculate_distance: degree-difference Euclidean norm
times 69 miles per degree.  The `try/except` returning `0.0` corresponds to
the missing-coordinate branch (the only failure possible in the typed
model). -/
noncomputable def calculateDistance (l1 l2 : Location) : ℝ :=
  match l1.latitude, l1.longitude, l2.latitude, l2.longitude with
  | some lat1, some lon1, some lat2, some lon2 =>
    let dlat : ℚ := |lat1 - lat2|
    let dlon : ℚ := |lon1 - lon2|
    Real.sqrt ((dlat ^ 2 + dlon ^ 2 : ℚ) : ℝ) * 69
  | _, _, _, _ => 0

/-- The loop body of FraudDetector._check_location_risk over the sliced
window: skip entries without truthy coordinates; for the first entry whose
distance exceeds 500 miles return `min 0.8 (distance / 1000)`; else 0. -/
noncomputable def locationScan (tl : Location) : List Txn → ℝ
  | [] => 0
  | r :: rest =>
    if truthyQ r.location.latitude = true ∧ truthyQ r.location.longitude = true then
      if 500 < calculateDistance tl r.location then
        min 0.8 (calculateDistance tl r.location / 1000)
      else locationScan tl rest
    else locationScan tl rest

/-- FraudDetector._check_location_risk: 0.6 for a US-home customer
transacting outside the US; otherwise scan `recent_transactions[-5:]`
(when the window is non-empty and the transaction has truthy coordinates);
else 0. -/
noncomputable def checkLocationRisk (t : Txn) (p : Profile) (recent : List Txn) : ℝ :=
  if p.location.country = some "US" ∧ t.location.country ≠ some "US" then 0.6
  else if recent ≠ [] ∧ truthyQ t.location.latitude = true ∧ truthyQ t.location.longitude = true then
    locationScan t.location (lastFive recent)
  else 0

/-- The four risk signal values of one assessment
(`risk_factors` in the source). -/
structure RiskFactors where
  velocity : ℚ
  amount : ℚ
  location : ℝ
  time : ℚ

/-- The ephemeral result of FraudDetector.calculate_risk_score. -/
structure RiskAssessment where
  risk_score : ℝ
  factors : RiskFactors
  is_fraud : Bool
  fraud_reasons : List String

/-- The weighted sum `0.4·velocity + 0.3·amount + 0.2·location + 0.1·time`
accumulated by calculate_risk_score before clamping. -/
noncomputable def rawRiskTotal (v a : ℚ) (l : ℝ) (tm : ℚ) : ℝ :=
  (v : ℝ) * 0.4 + (a : ℝ) * 0.3 + l * 0.2 + (tm : ℝ) * 0.1

/-- The clamp `min(max(total, 0.0), 1.0)` applied to the weighted sum. -/
noncomputable def clamp01 (x : ℝ) : ℝ := min (max x 0) 1

/-- Exact round-half-to-even of a real to an integer (Python 3 `round`). -/
noncomputable def rhalfEvenR (x : ℝ) : ℤ :=
  if Int.fract x < 1/2 then ⌊x⌋
  else if 1/2 < Int.fract x then ⌊x⌋ + 1
  else if 2 ∣ ⌊x⌋ then ⌊x⌋ else ⌊x⌋ + 1

/-- Python `round(x, 3)` on reals. -/
noncomputable def pyRound3R (x : ℝ) : ℝ := (rhalfEvenR (x * 1000) : ℝ) / 1000

/-- The `fraud_reasons` list: names of the factors whose score exceeds 0.5,
in the dict insertion order velocity, amount, location, time. -/
noncomputable def fraudReasons (v a : ℚ) (l : ℝ) (tm : ℚ) : List String :=
  (if (0.5 : ℚ) < v then ["velocity"] else []) ++
  (if (0.5 : ℚ) < a then ["amount"] else []) ++
  (if (0.5 : ℝ) < l then ["location"] else []) ++
  (if (0.5 : ℚ) < tm then ["time"] else [])

/-- FraudDetector.calculate_risk_score.  Computes the four signals, the
clamped weighted total, the score rounded to three decimals, the fraud flag
from the unrounded clamped total, and the reasons list.  `none` exactly
where the Python code raises (`ZeroDivisionError` inside the velocity or
amount signal). -/
noncomputable def calculateRiskScore (cfg : Config) (t : Txn) (p : Profile) (recent : List Txn) :
    Option RiskAssessment :=
  match checkVelocityRisk cfg t recent with
  | none => none
  | some v =>
    match checkAmountRisk cfg t p with
    | none => none
    | some a =>
      let l := checkLocationRisk t p recent
      let tm := checkTimeRisk t
      let total := clamp01 (rawRiskTotal v a l tm)
      some { risk_score := pyRound3R total
             factors := ⟨v, a, l, tm⟩
             is_fraud := decide ((cfg.fraudThreshold : ℝ) < total)
             fraud_reasons := fraudReasons v a l tm }

/-- The clamped composite score on its own (the quantity the fraud decision
compares against the threshold), defined on the same domain as
`calculateRiskScore`. -/
noncomputable def compositeRiskScore (cfg : Config) (t : Txn) (p : Profile) (recent : List Txn) :
    Option ℝ :=
  match checkVelocityRisk cfg t recent, checkAmountRisk cfg t p with
  | some v, some a =>
    some (clamp01 (rawRiskTotal v a (checkLocationRisk t p recent) (checkTimeRisk t)))
  | _, _ => none

/-- A stored (enriched) transaction: the validated transaction plus the
fields appended by the pipeline. -/
structure Enriched extends Txn where
  risk_score : ℝ
  is_fraud : Bool
  fraud_reasons : List String
  factors : RiskFactors
  processed_timestamp : ℤ
  processor_version : String

/-- The two DynamoDB tables: enriched transactions and customer profiles. -/
structure DB where
  transactions : List Enriched
  customers : List Profile

/-- The success summary returned by process_transaction. -/
structure ProcResult where
  status : String
  transaction_id : String
  risk_score : ℝ
  is_fraud : Bool

/-- Which external sinks are written for one record (the log of best-effort
side effects actually performed). -/
structure SideEffects where
  archived : List String
  metricsEmitted : List String
  alertsRaised : List String
deriving DecidableEq

/-- No side effects performed. -/
def noSideEffects : SideEffects := ⟨[], [], []⟩

/-- Per-record external-world outcome: the generated id used when the
candidate has none, and one flag per external call saying whether that call
fails for this record. -/
structure RecordCtx where
  genId : String
  profileLookupFails : Bool
  historyFails : Bool
  storeFails : Bool
  archiveFails : Bool
  profileUpdateFails : Bool
  metricsFails : Bool
  alertFails : Bool

/-- Upsert of a profile into the customers table (put_item keyed by
customer_id). -/
def putCustomer (db : DB) (p : Profile) : DB :=
  { db with customers := p :: db.customers.filter (fun q => q.customer_id ≠ p.customer_id) }

/-- The lazily created default profile written when a lookup finds no row. -/
def defaultNewProfile (now : ℤ) (cid : String) : Profile :=
  { customer_id := cid, risk_profile := "medium", average_monthly_spend := 1000
    transaction_count := 0, fraud_count := 0, location := emptyLocation
    account_created := some now, last_transaction_timestamp := none, last_updated := none }

/-- The conservative fallback profile substituted when the lookup itself
fails. -/
def fallbackProfile (cid : String) : Profile :=
  { customer_id := cid, risk_profile := "high", average_monthly_spend := 500
    transaction_count := 0, fraud_count := 0, location := emptyLocation
    account_created := none, last_transaction_timestamp := none, last_updated := none }

/-- TransactionProcessor._get_customer_profile: on lookup failure return the
fallback; on a miss create, persist and return the default profile; on a hit
return the stored profile. -/
def getCustomerProfile (fails : Bool) (now : ℤ) (db : DB) (cid : String) : Profile × DB :=
  if fails then (fallbackProfile cid, db)
  else
    match db.customers.find? (fun p => p.customer_id = cid) with
    | some p => (p, db)
    | none => (defaultNewProfile now cid, putCustomer db (defaultNewProfile now cid))

/-- Insert an enriched transaction into a most-recent-first list
(descending timestamps). -/
def insertDescByTs (e : Enriched) : List Enriched → List Enriched
  | [] => [e]
  | x :: xs => if e.timestamp ≤ x.timestamp then x :: insertDescByTs e xs else e :: x :: xs

/-- Sort a list of enriched transactions most-recent-first. -/
def sortDescByTs : List Enriched → List Enriched
  | [] => []
  | x :: xs => insertDescByTs x (sortDescByTs xs)

/-- TransactionProcessor._get_recent_transactions: on failure an empty
window; otherwise the customer's transactions of the last 24 hours,
most-recent-first, limited to 50. -/
def getRecentTransactions (fails : Bool) (db : DB) (cid : String) (now : ℤ) : List Txn :=
  if fails then []
  else
    ((sortDescByTs (db.transactions.filter
        (fun e => decide (e.customer_id = cid) && decide (now - 24 * 3600 ≤ e.timestamp)))).take 50).map
      Enriched.toTxn

/-- TransactionProcessor._store_transaction: put_item into the transactions
table (keyed by customer_id and timestamp). -/
def storeTransaction (db : DB) (e : Enriched) : DB :=
  { db with transactions :=
      (e :: db.transactions.filter
        (fun x => !(decide (x.customer_id = e.customer_id) && decide (x.timestamp = e.timestamp)))) }

/-- TransactionProcessor._update_customer_profile: bump the transaction
count, recompute the cumulative monthly average (rounded to 2 decimals),
bump the fraud count when the transaction is flagged, and stamp the last
transaction / update times. -/
def updateCustomerProfile (now : ℤ) (t : Enriched) (p : Profile) : Profile :=
  let currentCount := p.transaction_count
  let currentAvg := p.average_monthly_spend
  let newCount := currentCount + 1
  let newAvg := if 0 < currentCount then (currentAvg * currentCount + t.amount) / newCount else t.amount
  { p with transaction_count := newCount
           average_monthly_spend := pyRound2 newAvg
           fraud_count := p.fraud_count + (if t.is_fraud then 1 else 0)
           last_transaction_timestamp := some t.timestamp
           last_updated := some now }

/-- TransactionProcessor.process_transaction: the per-record pipeline.
Validation and scoring failures and a persistence failure abort the record
with the error; archive, profile-update, metrics and alert failures are
swallowed (their sink write / table write is simply skipped).  Returns the
record result, the updated tables and the log of sink writes. -/
noncomputable def processTransaction (cfg : Config) (now : ℤ) (ctx : RecordCtx) (db : DB)
    (c : Cand) : Except ProcError ProcResult × DB × SideEffects :=
  match validateTransaction ctx.genId c with
  | .error e => (.error e, db, noSideEffects)
  | .ok vc =>
    let vt := vc.asTxn
    let pr := getCustomerProfile ctx.profileLookupFails now db vt.customer_id
    let recent := getRecentTransactions ctx.historyFails pr.2 vt.customer_id now
    match calculateRiskScore cfg vt pr.1 recent with
    | none => (.error .zeroDivisionError, pr.2, noSideEffects)
    | some fa =>
      let et : Enriched :=
        { toTxn := vt, risk_score := fa.risk_score, is_fraud := fa.is_fraud
          fraud_reasons := fa.fraud_reasons, factors := fa.factors
          processed_timestamp := now, processor_version := "1.0.0" }
      if ctx.storeFails then (.error .storageError, pr.2, noSideEffects)
      else
        let db2 := storeTransaction pr.2 et
        let eff1 := if ctx.archiveFails then noSideEffects
                    else { noSideEffects with archived := [et.transaction_id] }
        let db3 := if ctx.profileUpdateFails then db2
                   else putCustomer db2 (updateCustomerProfile now et pr.1)
        let eff2 := if ctx.metricsFails then eff1
                    else { eff1 with metricsEmitted := [et.transaction_id] }
        let eff3 := if et.is_fraud = true ∧ ctx.alertFails = false then
                      { eff2 with alertsRaised := [et.transaction_id] }
                    else eff2
        (.ok { status := "success", transaction_id := et.transaction_id
               risk_score := et.risk_score, is_fraud := et.is_fraud }, db3, eff3)

/-- The three counters of one batch invocation. -/
structure BatchSummary where
  processed : ℕ
  errors : ℕ
  fraud_detected : ℕ
deriving DecidableEq

/-- Pointwise sum of batch counters. -/
def BatchSummary.add (a b : BatchSummary) : BatchSummary :=
  ⟨a.processed + b.processed, a.errors + b.errors, a.fraud_detected + b.fraud_detected⟩

/-- The counter contribution of one record's result: a success counts one
processed (and one fraud when flagged); any exception counts one error. -/
def recordSummary : Except ProcError ProcResult → BatchSummary
  | .ok r => ⟨1, 0, if r.is_fraud then 1 else 0⟩
  | .error _ => ⟨0, 1, 0⟩

/-- The per-record loop of lambda_handler: each record is processed against
the tables left by its predecessors, every per-record exception is caught
and counted, and the three counters are accumulated across the batch. -/
noncomputable def lambdaHandler (cfg : Config) (now : ℤ) :
    List (RecordCtx × Cand) → DB → BatchSummary × DB
  | [], db => (⟨0, 0, 0⟩, db)
  | (ctx, c) :: rest, db =>
    let step := processTransaction cfg now ctx db c
    let restRun := lambdaHandler cfg now rest step.2.1
    ((recordSummary step.1).add restRun.1, restRun.2)

/-- The location-scan loop as the specification words it: over the given
entries in order, the first entry with valid coordinates whose distance
exceeds 500 miles yields `min 0.8 (distance / 1000)`; no averaging; 0 when
no entry qualifies. -/
noncomputable def specLocationScan (tl : Location) : List Txn → ℝ
  | [] => 0
  | r :: rest =>
    if truthyQ r.location.latitude = true ∧ truthyQ r.location.longitude = true ∧
        500 < calculateDistance tl r.location then
      min 0.8 (calculateDistance tl r.location / 1000)
    else specLocationScan tl rest

/-- The location signal as claim C8 reads it: the five entries examined are
the five MOST RECENT transactions of the most-recent-first window, i.e. its
first five elements. -/
noncomputable def claimLocationRisk (t : Txn) (p : Profile) (recent : List Txn) : ℝ :=
  if p.location.country = some "US" ∧ t.location.country ≠ some "US" then 0.6
  else if recent ≠ [] ∧ truthyQ t.location.latitude = true ∧ truthyQ t.location.longitude = true then
    specLocationScan t.location (recent.take 5)
  else 0

/-- Replace exactly the four best-effort sink-failure flags of a record
context. -/
def RecordCtx.withSinkFlags (ctx : RecordCtx) (b1 b2 b3 b4 : Bool) : RecordCtx :=
  { ctx with archiveFails := b1, profileUpdateFails := b2, metricsFails := b3, alertFails := b4 }

/-- A fully valid candidate used in concrete runs. -/
def cA : Cand :=
  ⟨some "t1", some "c", some 50, some "USD", some "m", some "retail", some 43200, some emptyLocation⟩

/-- The transaction obtained from `cA`. -/
def txnA : Txn := cA.asTxn

/-- The lazily created default profile for customer "c" at time 0. -/
def pFresh : Profile := defaultNewProfile 0 "c"

/-- The assessment of `txnA` against `pFresh` with an empty window: every
signal is 0. -/
def aTriv : RiskAssessment := ⟨0, ⟨0, 0, 0, 0⟩, false, []⟩

/-- An enriched transaction of amount 0.001 (a valid positive amount). -/
def eTiny : Enriched :=
  { toTxn := ⟨"e1", "c1", 1/1000, "USD", "m", "retail", 0, emptyLocation⟩
    risk_score := 0, is_fraud := false, fraud_reasons := [], factors := ⟨0, 0, 0, 0⟩
    processed_timestamp := 0, processor_version := "1.0.0" }

/-- The profile left by processing `eTiny` against a fresh default profile:
its cumulative average rounds to exactly 0. -/
def pC1after : Profile := updateCustomerProfile 0 eTiny (defaultNewProfile 0 "c1")

/-- A transaction of amount 100 against customer "c1". -/
def tC1 : Txn := ⟨"t2", "c1", 100, "USD", "m", "retail", 43200, emptyLocation⟩

/-- The incoming transaction of the velocity example (claim C2). -/
def tC2 : Txn := ⟨"v0", "c2", 20, "USD", "m", "retail", 43200, emptyLocation⟩

/-- A prior transaction of customer "c2", `i` minutes before `tC2`. -/
def wC2e (i : ℤ) : Txn := ⟨"vi", "c2", 20, "USD", "m", "retail", 43200 - 60 * i, emptyLocation⟩

/-- A window of exactly 5 transactions, all within the hour before `tC2`. -/
def wC2 : List Txn := [wC2e 1, wC2e 2, wC2e 3, wC2e 4, wC2e 5]

/-- An enriched transaction of amount 200 (the duplicate-delivery example). -/
def e3 : Enriched :=
  { toTxn := ⟨"d1", "c3", 200, "USD", "m", "retail", 0, emptyLocation⟩
    risk_score := 0, is_fraud := false, fraud_reasons := [], factors := ⟨0, 0, 0, 0⟩
    processed_timestamp := 0, processor_version := "1.0.0" }

/-- A profile with one prior transaction averaging 100. -/
def p3 : Profile := ⟨"c3", "medium", 100, 1, 0, emptyLocation, none, none, none⟩

/-- A transaction of positive amount for claim C7's counterexample. -/
def t7 : Txn := ⟨"t7", "c7", 250, "USD", "m", "retail", 43200, emptyLocation⟩

/-- A profile whose stored average monthly spend is 0 (claim C7 quantifies
over every profile). -/
def p7 : Profile := ⟨"c7", "medium", 0, 4, 0, emptyLocation, none, none, none⟩

/-- The incoming transaction of the location example: coordinates
(10, 10). -/
def t8 : Txn := ⟨"t8", "c8", 30, "USD", "m", "retail", 43200, ⟨some 10, some 10, some "CA"⟩⟩

/-- A profile with no home location (so the US branch cannot fire). -/
def p8 : Profile := ⟨"c8", "medium", 1000, 9, 0, emptyLocation, none, none, none⟩

/-- A window entry far from `t8`: offset (6, 8) degrees, 690 miles. -/
def fr8 : Txn := ⟨"f8", "c8", 30, "USD", "m", "retail", 43100, ⟨some 16, some 18, none⟩⟩

/-- A window entry near `t8`: offset (0.3, 0.4) degrees, 34.5 miles. -/
def nr8 : Txn := ⟨"n8", "c8", 30, "USD", "m", "retail", 43000, ⟨some (103/10), some (52/5), none⟩⟩

/-- A most-recent-first window whose most recent entry is far away and
whose five older entries are all nearby. -/
def w8 : List Txn := [fr8, nr8, nr8, nr8, nr8, nr8]

/-- The transaction of the rounding-boundary example: amount 480.6 at
hour 3 UTC from country "CA". -/
def t10 : Txn := ⟨"t10", "c10", 2403/5, "USD", "m", "retail", 10800, ⟨some 40, some 50, some "CA"⟩⟩

/-- A US-home profile averaging 3000 monthly. -/
def p10 : Profile := ⟨"c10", "medium", 3000, 8, 0, ⟨none, none, some "US"⟩, none, none, none⟩

/-- A prior transaction of customer "c10" inside the last hour. -/
def w10e : Txn := ⟨"w10", "c10", 10, "USD", "m", "retail", 10700, emptyLocation⟩

/-- Ten in-hour prior transactions: the velocity signal saturates at 1. -/
def w10 : List Txn := [w10e, w10e, w10e, w10e, w10e, w10e, w10e, w10e, w10e, w10e]

/-- The assessment of `t10` against `p10` and `w10`: the unrounded clamped
composite is 0.8003, the rounded score is 0.800. -/
def a10 : RiskAssessment := ⟨0.8, ⟨1, 801/1000, 0.6, 2/5⟩, true, ["velocity", "amount", "location"]⟩

/-- A candidate with no transaction id (and otherwise valid). -/
def cNoId : Cand :=
  ⟨none, some "c9", some 75, some "EUR", some "m", some "retail", some 100, some emptyLocation⟩

/-- Empty tables. -/
def dbEmpty : DB := ⟨[], []⟩

/-- A record context in which every external call succeeds. -/
def ctxOK : RecordCtx := ⟨"g", false, false, false, false, false, false, false⟩

/-- A record context in which exactly the persistence write fails. -/
def ctxStoreFail : RecordCtx := { ctxOK with storeFails := true }

theorem calculateRiskScore_eq (cfg : Config) (t : Txn) (p : Profile) (recent : List Txn)
    (v a : ℚ) (hv : checkVelocityRisk cfg t recent = some v)
    (ha : checkAmountRisk cfg t p = some a) :
    calculateRiskScore cfg t p recent =
      some { risk_score := pyRound3R (clamp01 (rawRiskTotal v a (checkLocationRisk t p recent) (checkTimeRisk t)))
             factors := ⟨v, a, checkLocationRisk t p recent, checkTimeRisk t⟩
             is_fraud := decide ((cfg.fraudThreshold : ℝ) <
               clamp01 (rawRiskTotal v a (checkLocationRisk t p recent) (checkTimeRisk t)))
             fraud_reasons := fraudReasons v a (checkLocationRisk t p recent) (checkTimeRisk t) } := by
  unfold calculateRiskScore
  rw [hv, ha]

theorem compositeRiskScore_eq (cfg : Config) (t : Txn) (p : Profile) (recent : List Txn)
    (v a : ℚ) (hv : checkVelocityRisk cfg t recent = some v)
    (ha : checkAmountRisk cfg t p = some a) :
    compositeRiskScore cfg t p recent =
      some (clamp01 (rawRiskTotal v a (checkLocationRisk t p recent) (checkTimeRisk t))) := by
  unfold compositeRiskScore
  rw [hv, ha]

theorem calculateRiskScore_none_of_velocity (cfg : Config) (t : Txn) (p : Profile)
    (recent : List Txn) (hv : checkVelocityRisk cfg t recent = none) :
    calculateRiskScore cfg t p recent = none := by
  unfold calculateRiskScore
  rw [hv]

theorem calculateRiskScore_none_of_amount (cfg : Config) (t : Txn) (p : Profile)
    (recent : List Txn) (v : ℚ) (hv : checkVelocityRisk cfg t recent = some v)
    (ha : checkAmountRisk cfg t p = none) :
    calculateRiskScore cfg t p recent = none := by
  unfold calculateRiskScore
  rw [hv, ha]

theorem BatchSummary.zero_add (s : BatchSummary) : BatchSummary.add ⟨0, 0, 0⟩ s = s := by
  simp [BatchSummary.add]

theorem BatchSummary.add_assoc (a b c : BatchSummary) :
    (a.add b).add c = a.add (b.add c) := by
  simp [BatchSummary.add, Nat.add_assoc]

theorem lambdaHandler_append (cfg : Config) (now : ℤ) (xs ys : List (RecordCtx × Cand)) (db : DB) :
    lambdaHandler cfg now (xs ++ ys) db =
      ((lambdaHandler cfg now xs db).1.add (lambdaHandler cfg now ys (lambdaHandler cfg now xs db).2).1,
       (lambdaHandler cfg now ys (lambdaHandler cfg now xs db).2).2) := by
  induction xs generalizing db with
  | nil => simp [lambdaHandler, BatchSummary.zero_add]
  | cons x rest ih =>
    obtain ⟨ctx, c⟩ := x
    simp only [List.cons_append, lambdaHandler]
    rw [show ∀ l : List (RecordCtx × Cand), l.append ys = l ++ ys from fun _ => rfl, ih]
    simp [BatchSummary.add_assoc]

theorem locationScan_eq_spec (tl : Location) (l : List Txn) :
    locationScan tl l = specLocationScan tl l := by
  induction l with
  | nil => rfl
  | cons r rest ih =>
    rw [locationScan, specLocationScan]
    by_cases h1 : truthyQ r.location.latitude = true ∧ truthyQ r.location.longitude = true
    · rw [if_pos h1]
      by_cases h2 : 500 < calculateDistance tl r.location
      · rw [if_pos h2, if_pos ⟨h1.1, h1.2, h2⟩]
      · rw [if_neg h2, if_neg (fun h => h2 h.2.2), ih]
    · rw [if_neg h1, if_neg (fun h => h1 ⟨h.1, h.2.1⟩), ih]

theorem locationScan_bounds (tl : Location) (l : List Txn) :
    0 ≤ locationScan tl l ∧ locationScan tl l ≤ 1 := by
  induction l with
  | nil => rw [locationScan]; norm_num
  | cons r rest ih =>
    rw [locationScan]
    by_cases h1 : truthyQ r.location.latitude = true ∧ truthyQ r.location.longitude = true
    · rw [if_pos h1]
      by_cases h2 : 500 < calculateDistance tl r.location
      · rw [if_pos h2]
        constructor
        · exact le_min (by norm_num) (le_of_lt (div_pos (lt_trans (by norm_num) h2) (by norm_num)))
        · exact le_trans (min_le_left _ _) (by norm_num)
      · rw [if_neg h2]; exact ih
    · rw [if_neg h1]; exact ih

theorem clamp01_bounds (x : ℝ) : 0 ≤ clamp01 x ∧ clamp01 x ≤ 1 :=
  ⟨le_min (le_max_right x 0) zero_le_one, min_le_right _ _⟩

theorem checkLocationRisk_bounds (t : Txn) (p : Profile) (recent : List Txn) :
    0 ≤ checkLocationRisk t p recent ∧ checkLocationRisk t p recent ≤ 1 := by
  rw [checkLocationRisk]
  by_cases h1 : p.location.country = some "US" ∧ t.location.country ≠ some "US"
  · rw [if_pos h1]; norm_num
  · rw [if_neg h1]
    by_cases h2 : recent ≠ [] ∧ truthyQ t.location.latitude = true ∧ truthyQ t.location.longitude = true
    · rw [if_pos h2]; exact locationScan_bounds _ _
    · rw [if_neg h2]; norm_num

theorem checkTimeRisk_bounds (t : Txn) : 0 ≤ checkTimeRisk t ∧ checkTimeRisk t ≤ 1 := by
  rw [checkTimeRisk]
  split_ifs <;> norm_num

theorem checkVelocityRisk_default (t : Txn) (recent : List Txn) :
    ∃ v, checkVelocityRisk defaultConfig t recent = some v ∧ 0 ≤ v ∧ v ≤ 1 := by
  rw [checkVelocityRisk]
  by_cases h1 : recent = []
  · exact ⟨0, by rw [if_pos h1], by norm_num⟩
  · rw [if_neg h1]
    simp only [defaultConfig]
    by_cases h2 : (5 : ℕ) ≤ (recent.filter (fun r => decide (t.timestamp - 3600 < r.timestamp))).length
    · rw [if_pos h2, if_neg (by norm_num)]
      refine ⟨_, rfl, ?_, ?_⟩
      · exact le_min (by norm_num) (div_nonneg (by positivity) (by norm_num))
      · exact min_le_left _ _
    · rw [if_neg h2]
      exact ⟨0, rfl, by norm_num⟩

theorem checkAmountRisk_default (t : Txn) (p : Profile) (hamt : 0 < t.amount)
    (havg : 0 < p.average_monthly_spend) :
    ∃ a, checkAmountRisk defaultConfig t p = some a ∧ 0 ≤ a ∧ a ≤ 1 := by
  rw [checkAmountRisk]
  simp only [defaultConfig]
  rw [show (3.0 : ℚ) = 3 from by norm_num]
  have hden : 0 < p.average_monthly_spend / 30 * 3 * 2 := by positivity
  by_cases h1 : p.average_monthly_spend / 30 * 3 < t.amount
  · rw [if_pos h1, if_neg (ne_of_gt hden)]
    refine ⟨_, rfl, ?_, ?_⟩
    · exact le_min (by norm_num) (div_nonneg hamt.le hden.le)
    · exact min_le_left _ _
  · rw [if_neg h1]
    by_cases h2 : (10000 : ℚ) < t.amount
    · rw [if_pos h2]; exact ⟨0.8, rfl, by norm_num⟩
    · rw [if_neg h2]; exact ⟨0, rfl, by norm_num⟩

theorem checkAmountRisk_txnA : checkAmountRisk defaultConfig txnA pFresh = some 0 := by
  norm_num [checkAmountRisk, defaultConfig, txnA, cA, Cand.asTxn, pFresh, defaultNewProfile]

theorem checkLocationRisk_txnA : checkLocationRisk txnA pFresh [] = 0 := by
  rw [checkLocationRisk,
    if_neg (by simp [txnA, cA, Cand.asTxn, pFresh, defaultNewProfile, emptyLocation]),
    if_neg (by simp)]

theorem checkTimeRisk_txnA : checkTimeRisk txnA = 0 := by
  norm_num [checkTimeRisk, hourOf, txnA, cA, Cand.asTxn]

theorem pyRound3R_zero : pyRound3R (0 : ℝ) = 0 := by
  rw [pyRound3R, rhalfEvenR, Int.fract]
  norm_num

theorem clamp01_zero : clamp01 (0 : ℝ) = 0 := by
  rw [clamp01]
  norm_num

theorem calc_trivial : calculateRiskScore defaultConfig txnA pFresh [] = some aTriv := by
  rw [calculateRiskScore_eq defaultConfig txnA pFresh [] 0 0 rfl checkAmountRisk_txnA,
    checkLocationRisk_txnA, checkTimeRisk_txnA]
  have hraw : rawRiskTotal 0 0 0 0 = 0 := by norm_num [rawRiskTotal]
  rw [hraw, clamp01_zero, pyRound3R_zero]
  have hf : (decide ((defaultConfig.fraudThreshold : ℝ) < 0)) = false := by
    rw [decide_eq_false_iff_not]
    norm_num [defaultConfig]
  have hreas : fraudReasons 0 0 0 0 = [] := by
    rw [fraudReasons, if_neg (by norm_num), if_neg (by norm_num), if_neg (by norm_num),
      if_neg (by norm_num)]
    rfl
  rw [hf, hreas]
  rfl

theorem composite_trivial : compositeRiskScore defaultConfig txnA pFresh [] = some 0 := by
  rw [compositeRiskScore_eq defaultConfig txnA pFresh [] 0 0 rfl checkAmountRisk_txnA,
    checkLocationRisk_txnA, checkTimeRisk_txnA]
  have hraw : rawRiskTotal 0 0 0 0 = 0 := by norm_num [rawRiskTotal]
  rw [hraw, clamp01_zero]

theorem checkVelocityRisk_t10 : checkVelocityRisk defaultConfig t10 w10 = some 1 := by
  norm_num [checkVelocityRisk, defaultConfig, t10, w10, w10e, List.filter_cons,
    decide_eq_true_eq, List.cons_ne_nil]

theorem checkAmountRisk_t10 : checkAmountRisk defaultConfig t10 p10 = some (801/1000) := by
  norm_num [checkAmountRisk, defaultConfig, t10, p10, min_eq_right]

theorem checkLocationRisk_t10 : checkLocationRisk t10 p10 w10 = 0.6 := by
  rw [checkLocationRisk, if_pos (by simp [t10, p10])]

theorem checkTimeRisk_t10 : checkTimeRisk t10 = 2/5 := by
  norm_num [checkTimeRisk, hourOf, t10]

theorem calc_c10 : calculateRiskScore defaultConfig t10 p10 w10 = some a10 := by
  rw [calculateRiskScore_eq defaultConfig t10 p10 w10 1 (801/1000) checkVelocityRisk_t10
      checkAmountRisk_t10, checkLocationRisk_t10, checkTimeRisk_t10]
  have hraw : rawRiskTotal 1 (801/1000) 0.6 (2/5) = 0.8003 := by
    rw [rawRiskTotal]
    push_cast
    norm_num
  have hclamp : clamp01 (0.8003 : ℝ) = 0.8003 := by
    rw [clamp01, max_eq_left (by norm_num), min_eq_left (by norm_num)]
  rw [hraw, hclamp]
  have hr : pyRound3R (0.8003 : ℝ) = 0.8 := by
    have h : (⌊(0.8003 : ℝ) * 1000⌋ : ℤ) = 800 := by rw [Int.floor_eq_iff]; norm_num
    rw [pyRound3R, rhalfEvenR, Int.fract, h]
    norm_num
  have hf : (decide ((defaultConfig.fraudThreshold : ℝ) < 0.8003)) = true := by
    rw [decide_eq_true_iff]
    norm_num [defaultConfig]
  have hreas : fraudReasons 1 (801/1000) 0.6 (2/5) = ["velocity", "amount", "location"] := by
    rw [fraudReasons, if_pos (by norm_num), if_pos (by norm_num), if_pos (by norm_num),
      if_neg (by norm_num)]
    rfl
  rw [hr, hf, hreas]
  rfl

theorem composite_c10 : compositeRiskScore defaultConfig t10 p10 w10 = some 0.8003 := by
  rw [compositeRiskScore_eq defaultConfig t10 p10 w10 1 (801/1000) checkVelocityRisk_t10
      checkAmountRisk_t10, checkLocationRisk_t10, checkTimeRisk_t10]
  have hraw : rawRiskTotal 1 (801/1000) 0.6 (2/5) = 0.8003 := by
    rw [rawRiskTotal]
    push_cast
    norm_num
  rw [hraw, clamp01, max_eq_left (by norm_num), min_eq_left (by norm_num)]

theorem assignId_eq (g : String) (t : Cand) :
    assignId g t = { t with transaction_id := some (t.transaction_id.getD g) } := by
  obtain ⟨tid, c2, c3, c4, c5, c6, c7, c8⟩ := t
  cases tid <;> simp [assignId]

theorem dist_far : calculateDistance t8.location fr8.location = 690 := by
  simp only [t8, fr8, calculateDistance]
  have h : ((|(10:ℚ) - 16| ^ 2 + |(10:ℚ) - 18| ^ 2 : ℚ) : ℝ) = (10 : ℝ) ^ 2 := by
    push_cast
    norm_num
  rw [h, Real.sqrt_sq (by norm_num)]
  norm_num

theorem dist_near : calculateDistance t8.location nr8.location = 69/2 := by
  simp only [t8, nr8, calculateDistance]
  have h : ((|(10:ℚ) - 103/10| ^ 2 + |(10:ℚ) - 52/5| ^ 2 : ℚ) : ℝ) = (1/2 : ℝ) ^ 2 := by
    push_cast
    norm_num
  rw [h, Real.sqrt_sq (by norm_num)]
  norm_num

theorem truthy_near : truthyQ nr8.location.latitude = true ∧ truthyQ nr8.location.longitude = true := by
  constructor <;> simp [nr8, truthyQ]

theorem truthy_far : truthyQ fr8.location.latitude = true ∧ truthyQ fr8.location.longitude = true := by
  constructor <;> simp [fr8, truthyQ]

theorem truthy_t8 : truthyQ t8.location.latitude = true ∧ truthyQ t8.location.longitude = true := by
  constructor <;> simp [t8, truthyQ]

theorem scan_code_w8 : locationScan t8.location (lastFive w8) = 0 := by
  rw [show lastFive w8 = [nr8, nr8, nr8, nr8, nr8] from rfl]
  iterate 5 rw [locationScan, if_pos truthy_near, if_neg (by rw [dist_near]; norm_num)]
  rfl

theorem scan_spec_w8 : specLocationScan t8.location (w8.take 5) = 69/100 := by
  rw [show w8.take 5 = [fr8, nr8, nr8, nr8, nr8] from rfl]
  rw [specLocationScan, if_pos ⟨truthy_far.1, truthy_far.2, by rw [dist_far]; norm_num⟩]
  rw [dist_far, min_eq_right (by norm_num)]
  norm_num

theorem checkLocationRisk_w8 : checkLocationRisk t8 p8 w8 = 0 := by
  rw [checkLocationRisk, if_neg (by simp [p8, emptyLocation]),
    if_pos ⟨by simp [w8], truthy_t8.1, truthy_t8.2⟩, scan_code_w8]

theorem claimLocationRisk_w8 : claimLocationRisk t8 p8 w8 = 69/100 := by
  rw [claimLocationRisk, if_neg (by simp [p8, emptyLocation]),
    if_pos ⟨by simp [w8], truthy_t8.1, truthy_t8.2⟩, scan_spec_w8]

/-- Claim C1: the Score step is claimed total — `calculate_risk_score`
returns a RiskAssessment and never raises for every profile value of
`average_monthly_spend`, including 0.  The code violates this: a profile
produced by the pipeline's own profile update (amount 0.001 against a fresh
default profile rounds the stored average to exactly 0) makes
`_check_amount_risk` divide by zero on the next positive-amount
transaction, so the Score step raises `ZeroDivisionError` (modelled as
`none`) instead of returning an assessment. -/
theorem claimC1_score_divides_by_zero_on_zero_average :
    pC1after.average_monthly_spend = 0 ∧ 0 < tC1.amount ∧
    calculateRiskScore defaultConfig tC1 pC1after [] = none := by
  have havg : pC1after.average_monthly_spend = 0 := by
    norm_num [pC1after, updateCustomerProfile, defaultNewProfile, eTiny, pyRound2, rhalfEvenQ,
      Int.fract]
  have hamt : checkAmountRisk defaultConfig tC1 pC1after = none := by
    rw [checkAmountRisk, havg]
    norm_num [tC1, defaultConfig]
  exact ⟨havg, by norm_num [tC1], calculateRiskScore_none_of_amount _ _ _ _ 0 rfl hamt⟩

/-- Claim C2, counterexample: the claim predicts velocity signal
`min(1.0, 6/10) = 0.6` for a customer with 5 prior in-hour transactions
and a 6th arriving now.  The code counts only the window entries (the
incoming transaction is not part of the window), giving `min(1.0, 5/10) =
0.5 ≠ 0.6`. -/
theorem claimC2_velocity_counterexample :
    checkVelocityRisk defaultConfig tC2 wC2 = some (1/2) ∧ ((1 : ℚ)/2) ≠ 3/5 := by
  constructor
  · norm_num [checkVelocityRisk, defaultConfig, tC2, wC2, wC2e, List.filter_cons,
      decide_eq_true_eq, List.cons_ne_nil]
  · norm_num

/-- Claim C2 as amended: with the default velocity threshold 5, a window
containing exactly 5 transactions timestamped within the hour before the
incoming transaction yields velocity signal `min(1.0, 5/10) = 0.5`; the
count is over prior (window) transactions only and does not include the
incoming one. -/
theorem claimC2_velocity_amended (t : Txn) (w : List Txn)
    (hcount : (w.filter (fun r => decide (t.timestamp - 3600 < r.timestamp))).length = 5) :
    checkVelocityRisk defaultConfig t w = some (1/2) := by
  cases w with
  | nil => simp [List.filter] at hcount
  | cons r rest =>
    simp only [checkVelocityRisk, defaultConfig]
    rw [if_neg (by exact List.cons_ne_nil r rest)]
    rw [hcount]
    norm_num

/-- Claim C2 witness: a concrete window of 5 in-hour transactions
satisfying the count hypothesis, with velocity signal 0.5. -/
theorem claimC2_velocity_witness :
    (wC2.filter (fun r => decide (tC2.timestamp - 3600 < r.timestamp))).length = 5 ∧
    checkVelocityRisk defaultConfig tC2 wC2 = some (1/2) := by
  have h : (wC2.filter (fun r => decide (tC2.timestamp - 3600 < r.timestamp))).length = 5 := by
    norm_num [wC2, wC2e, tC2, List.filter_cons, decide_eq_true_eq]
  exact ⟨h, claimC2_velocity_amended tC2 wC2 h⟩

/-- Claim C3: duplicate delivery of the same transaction must not change
the profile aggregates beyond a single processing.  The code violates
this: `_update_customer_profile` does not deduplicate by transaction id,
so applying it twice with the same transaction (amount 200, profile with
count 1 and average 100) yields transaction_count 3 and average 166.67,
whereas a single processing yields count 2 and average 150. -/
theorem claimC3_duplicate_double_counts :
    (updateCustomerProfile 0 e3 p3).transaction_count = 2 ∧
    (updateCustomerProfile 0 e3 p3).average_monthly_spend = 150 ∧
    (updateCustomerProfile 0 e3 (updateCustomerProfile 0 e3 p3)).transaction_count = 3 ∧
    (updateCustomerProfile 0 e3 (updateCustomerProfile 0 e3 p3)).average_monthly_spend
      = 16667/100 := by
  norm_num [updateCustomerProfile, e3, p3, pyRound2, rhalfEvenQ, Int.fract]

/-- Claim C4: when the persist step fails for a record that validated and
scored successfully, that record's pipeline aborts with the storage error,
performs no sink side effects and leaves the tables as they were after the
profile fetch (no stored transaction, no profile update); and in a batch
the record contributes exactly one error while every record after it is
still processed from the post-fetch state. -/
theorem claimC4_persist_failure_isolates_record (cfg : Config) (now : ℤ) (ctx : RecordCtx)
    (c : Cand) (db0 db1 : DB) (pre suf : List (RecordCtx × Cand)) (vc : Cand)
    (fa : RiskAssessment)
    (hstore : ctx.storeFails = true)
    (hval : validateTransaction ctx.genId c = .ok vc)
    (hpre : (lambdaHandler cfg now pre db0).2 = db1)
    (hscore : calculateRiskScore cfg vc.asTxn
        (getCustomerProfile ctx.profileLookupFails now db1 vc.asTxn.customer_id).1
        (getRecentTransactions ctx.historyFails
          (getCustomerProfile ctx.profileLookupFails now db1 vc.asTxn.customer_id).2
          vc.asTxn.customer_id now) = some fa) :
    processTransaction cfg now ctx db1 c =
      (.error .storageError,
        (getCustomerProfile ctx.profileLookupFails now db1 vc.asTxn.customer_id).2,
        noSideEffects) ∧
    lambdaHandler cfg now (pre ++ (ctx, c) :: suf) db0 =
      ((lambdaHandler cfg now pre db0).1.add (BatchSummary.add ⟨0, 1, 0⟩
          (lambdaHandler cfg now suf
            (getCustomerProfile ctx.profileLookupFails now db1 vc.asTxn.customer_id).2).1),
        (lambdaHandler cfg now suf
          (getCustomerProfile ctx.profileLookupFails now db1 vc.asTxn.customer_id).2).2) := by
  have h1 : processTransaction cfg now ctx db1 c =
      (.error .storageError,
        (getCustomerProfile ctx.profileLookupFails now db1 vc.asTxn.customer_id).2,
        noSideEffects) := by
    simp only [processTransaction, hval]
    rw [hscore]
    simp [hstore]
  refine ⟨h1, ?_⟩
  rw [lambdaHandler_append, hpre]
  conv_lhs => rw [lambdaHandler]
  rw [h1]
  simp [recordSummary]

/-- Claim C4 witness: a concrete one-record batch whose persistence write
fails; the record errors without side effects. -/
theorem claimC4_persist_failure_witness :
    processTransaction defaultConfig 0 ctxStoreFail dbEmpty cA =
      (.error .storageError,
        (getCustomerProfile ctxStoreFail.profileLookupFails 0 dbEmpty
          (Cand.asTxn cA).customer_id).2,
        noSideEffects) :=
  (claimC4_persist_failure_isolates_record defaultConfig 0 ctxStoreFail cA dbEmpty dbEmpty
    [] [] cA aTriv rfl rfl rfl calc_trivial).1

/-- Claim C5: for a record that reaches the persist step successfully, the
returned result is the success summary {status, transaction id, risk
score, is_fraud}, whatever the outcome of the archive, profile-update,
metrics and fraud-alert steps — their failures never raise past the
orchestrator and never change the summary. -/
theorem claimC5_sink_failures_preserve_summary (cfg : Config) (now : ℤ) (ctx : RecordCtx)
    (db : DB) (c vc : Cand) (fa : RiskAssessment) (b1 b2 b3 b4 : Bool)
    (hval : validateTransaction ctx.genId c = .ok vc)
    (hscore : calculateRiskScore cfg vc.asTxn
        (getCustomerProfile ctx.profileLookupFails now db vc.asTxn.customer_id).1
        (getRecentTransactions ctx.historyFails
          (getCustomerProfile ctx.profileLookupFails now db vc.asTxn.customer_id).2
          vc.asTxn.customer_id now) = some fa)
    (hstore : ctx.storeFails = false) :
    (processTransaction cfg now (ctx.withSinkFlags b1 b2 b3 b4) db c).1 =
      .ok ⟨"success", vc.asTxn.transaction_id, fa.risk_score, fa.is_fraud⟩ := by
  simp only [processTransaction, RecordCtx.withSinkFlags, hval]
  rw [hscore]
  simp [hstore]

/-- Claim C5 witness: a concrete record processed with all four sink steps
failing still returns the success summary. -/
theorem claimC5_sink_failures_witness :
    (processTransaction defaultConfig 0 (ctxOK.withSinkFlags true true true true) dbEmpty cA).1 =
      .ok ⟨"success", (Cand.asTxn cA).transaction_id, aTriv.risk_score, aTriv.is_fraud⟩ :=
  claimC5_sink_failures_preserve_summary defaultConfig 0 ctxOK dbEmpty cA cA aTriv
    true true true true rfl calc_trivial rfl

/-- Claim C6: for every configuration, transaction, profile and window on
which the Score step returns, the assessment's is_fraud flag is true if
and only if the clamped composite risk score strictly exceeds the
configured fraud threshold. -/
theorem claimC6_is_fraud_iff_threshold (cfg : Config) (t : Txn) (p : Profile)
    (recent : List Txn) (a : RiskAssessment) (s : ℝ)
    (hc : calculateRiskScore cfg t p recent = some a)
    (hs : compositeRiskScore cfg t p recent = some s) :
    (a.is_fraud = true ↔ (cfg.fraudThreshold : ℝ) < s) := by
  cases hv : checkVelocityRisk cfg t recent with
  | none => rw [calculateRiskScore_none_of_velocity cfg t p recent hv] at hc; cases hc
  | some v =>
    cases ha : checkAmountRisk cfg t p with
    | none => rw [calculateRiskScore_none_of_amount cfg t p recent v hv ha] at hc; cases hc
    | some a2 =>
      rw [calculateRiskScore_eq cfg t p recent v a2 hv ha] at hc
      rw [compositeRiskScore_eq cfg t p recent v a2 hv ha] at hs
      injection hc with hc
      injection hs with hs
      subst hc
      subst hs
      simp [decide_eq_true_eq]

/-- Claim C6 witness: the all-zero-signal assessment is not fraudulent,
matching 0 not exceeding the default threshold. -/
theorem claimC6_is_fraud_witness :
    aTriv.is_fraud = true ↔ (defaultConfig.fraudThreshold : ℝ) < 0 :=
  claimC6_is_fraud_iff_threshold defaultConfig txnA pFresh [] aTriv 0 calc_trivial
    composite_trivial

/-- Claim C7, counterexample: the claim asserts every valid input
(positive amount, ANY profile, any window) yields four signals in [0,1]
and a composite in [0,1].  For a profile whose stored average monthly
spend is 0 and a positive amount, the amount signal is not even defined:
the Score step raises (division by zero), so no in-range signals exist at
this input. -/
theorem claimC7_range_counterexample :
    0 < t7.amount ∧ calculateRiskScore defaultConfig t7 p7 [] = none := by
  have hamt : checkAmountRisk defaultConfig t7 p7 = none := by
    rw [checkAmountRisk]
    norm_num [t7, p7, defaultConfig]
  exact ⟨by norm_num [t7], calculateRiskScore_none_of_amount _ _ _ _ 0 rfl hamt⟩

/-- Claim C7 as amended: for positive amounts and profiles with a
strictly positive average monthly spend (which excludes the
division-by-zero input of the counterexample and the negative-average
inputs, where the amount signal would be negative), the Score step
returns, each of the four signals lies in [0,1], and the clamped
composite lies in [0,1]. -/
theorem claimC7_range_amended (t : Txn) (p : Profile) (recent : List Txn)
    (hamt : 0 < t.amount) (havg : 0 < p.average_monthly_spend) :
    (calculateRiskScore defaultConfig t p recent).isSome = true ∧
    (∀ a, calculateRiskScore defaultConfig t p recent = some a →
      0 ≤ a.factors.velocity ∧ a.factors.velocity ≤ 1 ∧
      0 ≤ a.factors.amount ∧ a.factors.amount ≤ 1 ∧
      0 ≤ a.factors.location ∧ a.factors.location ≤ 1 ∧
      0 ≤ a.factors.time ∧ a.factors.time ≤ 1) ∧
    (∀ s, compositeRiskScore defaultConfig t p recent = some s → 0 ≤ s ∧ s ≤ 1) := by
  obtain ⟨v, hv, hv0, hv1⟩ := checkVelocityRisk_default t recent
  obtain ⟨a, ha, ha0, ha1⟩ := checkAmountRisk_default t p hamt havg
  refine ⟨?_, ?_, ?_⟩
  · rw [calculateRiskScore_eq _ _ _ _ _ _ hv ha]; rfl
  · intro a2 h
    rw [calculateRiskScore_eq _ _ _ _ _ _ hv ha] at h
    injection h with h
    subst h
    exact ⟨hv0, hv1, ha0, ha1, (checkLocationRisk_bounds t p recent).1,
      (checkLocationRisk_bounds t p recent).2, (checkTimeRisk_bounds t).1,
      (checkTimeRisk_bounds t).2⟩
  · intro s h
    rw [compositeRiskScore_eq _ _ _ _ _ _ hv ha] at h
    injection h with h
    subst h
    exact clamp01_bounds _

/-- Claim C7 witness: a concrete positive-amount transaction and a
positive-average profile on which the Score step returns. -/
theorem claimC7_range_witness :
    0 < txnA.amount ∧ 0 < pFresh.average_monthly_spend ∧
    (calculateRiskScore defaultConfig txnA pFresh []).isSome = true :=
  ⟨by norm_num [txnA, cA, Cand.asTxn], by norm_num [pFresh, defaultNewProfile],
    (claimC7_range_amended txnA pFresh [] (by norm_num [txnA, cA, Cand.asTxn])
      (by norm_num [pFresh, defaultNewProfile])).1⟩

/-- Claim C8, counterexample: the claim reads the scanned entries as the 5
MOST RECENT transactions of the most-recent-first window.  On a 6-entry
window whose most recent entry is 690 miles away and whose 5 older entries
are 34.5 miles away, that reading yields signal min(0.8, 0.69) = 0.69,
but the code (`recent_transactions[-5:]`, the LAST five list elements,
i.e. the five OLDEST entries) yields 0. -/
theorem claimC8_scan_counterexample :
    checkLocationRisk t8 p8 w8 = 0 ∧ claimLocationRisk t8 p8 w8 = 69/100 ∧
    claimLocationRisk t8 p8 w8 ≠ checkLocationRisk t8 p8 w8 := by
  refine ⟨checkLocationRisk_w8, claimLocationRisk_w8, ?_⟩
  rw [checkLocationRisk_w8, claimLocationRisk_w8]
  norm_num

/-- Claim C8 as amended: when the US-home branch does not fire and the
transaction has truthy coordinates and the window is non-empty, the code
scans the LAST five elements of the most-recent-first window (its five
oldest entries), in order, returning min(0.8, distance/1000) for the
first truthy-coordinate entry whose distance exceeds 500 miles, and 0 if
none qualifies. -/
theorem claimC8_scan_amended (t : Txn) (p : Profile) (recent : List Txn)
    (hus : ¬(p.location.country = some "US" ∧ t.location.country ≠ some "US"))
    (hlat : truthyQ t.location.latitude = true) (hlon : truthyQ t.location.longitude = true)
    (hne : recent ≠ []) :
    checkLocationRisk t p recent =
      specLocationScan t.location (recent.drop (recent.length - 5)) := by
  rw [checkLocationRisk, if_neg hus, if_pos ⟨hne, hlat, hlon⟩, lastFive, locationScan_eq_spec]

/-- Claim C8 witness: the amended scan semantics at the concrete window of
the counterexample. -/
theorem claimC8_scan_witness :
    checkLocationRisk t8 p8 w8 = specLocationScan t8.location (w8.drop (w8.length - 5)) :=
  claimC8_scan_amended t8 p8 w8 (by simp [p8, emptyLocation]) truthy_t8.1 truthy_t8.2
    (by simp [w8])

/-- Claim C9, counterexample: the claim asserts validation performs no
side effects on its input — in the pure embedding, that a successful
validation returns its argument unchanged.  On a candidate with no
transaction id, the code assigns a generated id to the input dict in
place: the returned candidate differs from the argument. -/
theorem claimC9_mutation_counterexample :
    validateTransaction "gen" cNoId = .ok { cNoId with transaction_id := some "gen" } ∧
    ({ cNoId with transaction_id := some "gen" } : Cand) ≠ cNoId := by
  refine ⟨rfl, ?_⟩
  simp [cNoId]

/-- Claim C9 as amended: validation's only mutation of the candidate is
assigning the generated transaction id when it is absent — every
successful validation returns exactly the input with its transaction id
defaulted — and validation is idempotent: re-validating a successful
output returns it unchanged (in particular an already-valid transaction,
id included, is returned unchanged). -/
theorem claimC9_idempotence_amended (g g2 : String) (t r : Cand)
    (h : validateTransaction g t = .ok r) :
    r = { t with transaction_id := some (t.transaction_id.getD g) } ∧
    validateTransaction g2 r = .ok r := by
  simp only [validateTransaction] at h
  split_ifs at h with h1 h2 h3 h4 h5 h6 h7 h8 h9
  injection h with h
  subst h
  refine ⟨assignId_eq g t, ?_⟩
  rw [assignId_eq]
  simp only [validateTransaction, assignId]
  simp only [Option.isSome_some, if_true]
  rw [if_neg h1, if_neg h2, if_neg h3, if_neg h4, if_neg h5, if_neg h6, if_neg h7]
  rw [if_neg (by simpa [assignId_eq] using h8), if_neg (by simpa [assignId_eq] using h9)]

/-- Claim C9 witness: a concrete candidate without an id validates to the
id-assigned candidate, and re-validating that output is the identity. -/
theorem claimC9_idempotence_witness :
    ({ cNoId with transaction_id := some "gen" } : Cand) =
      { cNoId with transaction_id := some (cNoId.transaction_id.getD "gen") } ∧
    validateTransaction "gen2" { cNoId with transaction_id := some "gen" } =
      .ok { cNoId with transaction_id := some "gen" } :=
  claimC9_idempotence_amended "gen" "gen2" cNoId { cNoId with transaction_id := some "gen" } rfl

/-- Claim C10: the reported risk_score is the clamped composite rounded to
three decimals while is_fraud is decided on the unrounded clamped
composite; consequently there is an input (composite exactly 0.8003 under
the default threshold 0.8) whose assessment has is_fraud true while its
reported risk_score (0.800) does not strictly exceed the threshold. -/
theorem claimC10_rounding_boundary :
    (∀ (cfg : Config) (t : Txn) (p : Profile) (recent : List Txn) (a : RiskAssessment) (s : ℝ),
      calculateRiskScore cfg t p recent = some a → compositeRiskScore cfg t p recent = some s →
      a.risk_score = pyRound3R s ∧ (a.is_fraud = true ↔ (cfg.fraudThreshold : ℝ) < s)) ∧
    calculateRiskScore defaultConfig t10 p10 w10 = some a10 ∧ a10.is_fraud = true ∧
      ¬ (defaultConfig.fraudThreshold : ℝ) < a10.risk_score := by
  refine ⟨?_, calc_c10, rfl, by norm_num [a10, defaultConfig]⟩
  intro cfg t p recent a s hc hs
  cases hv : checkVelocityRisk cfg t recent with
  | none => rw [calculateRiskScore_none_of_velocity cfg t p recent hv] at hc; cases hc
  | some v =>
    cases ha : checkAmountRisk cfg t p with
    | none => rw [calculateRiskScore_none_of_amount cfg t p recent v hv ha] at hc; cases hc
    | some a2 =>
      rw [calculateRiskScore_eq cfg t p recent v a2 hv ha] at hc
      rw [compositeRiskScore_eq cfg t p recent v a2 hv ha] at hs
      injection hc with hc
      injection hs with hs
      subst hc
      subst hs
      exact ⟨rfl, by simp [decide_eq_true_eq]⟩

/-- Claim C10 witness: the universal part instantiated at the all-zero
assessment. -/
theorem claimC10_rounding_witness :
    aTriv.risk_score = pyRound3R 0 ∧
    (aTriv.is_fraud = true ↔ (defaultConfig.fraudThreshold : ℝ) < 0) :=
  claimC10_rounding_boundary.1 defaultConfig txnA pFresh [] aTriv 0 calc_trivial
    composite_trivial
